import Mathlib

/-!
Shallow embedding of `src/webscraper/scrapy.py` ("Universal Exam Info
Fetcher").  Python strings are Lean `String`s, HTML documents (the output of
the excluded BeautifulSoup parser) are rose trees of element/text nodes,
Python dicts with string keys are insertion-ordered association lists, and
every external HTTP surface is a field of an `Env` record returning
`Option`-typed responses (`none` = transport error / timeout / non-success
status / malformed payload, all of which the source converts to its typed
empty result via `try/except`).
-/

namespace Scrapy

/-! ### Python string primitives (charwise, kernel-evaluable) -/

/-- Python whitespace for `str.strip()`. -/
def pyWs (c : Char) : Bool :=
  c = ' ' || c = '\t' || c = '\n' || c = '\r' || c = '\x0b' || c = '\x0c'

/-- Python `str.strip()`. -/
def pyStrip (s : String) : String :=
  ⟨((s.data.dropWhile pyWs).reverse.dropWhile pyWs).reverse⟩

/-- Python `str.lower()` (ASCII, which is all the source compares). -/
def pyLower (s : String) : String :=
  ⟨s.data.map Char.toLower⟩

/-- Python `str.rstrip("/")`. -/
def pyRstripSlash (s : String) : String :=
  ⟨((s.data.reverse.dropWhile (· = '/'))).reverse⟩

/-- Python `str.lstrip("/")`. -/
def pyLstripSlash (s : String) : String :=
  ⟨s.data.dropWhile (· = '/')⟩

/-- Is `p` a prefix of `l` (Boolean, structural)? -/
def listPre : List Char → List Char → Bool
  | [], _ => true
  | _ :: _, [] => false
  | a :: as, b :: bs => a = b && listPre as bs

/-- Does `p` occur as a contiguous run inside `l`? -/
def listSubstr : List Char → List Char → Bool
  | p, [] => listPre p []
  | p, c :: rest => listPre p (c :: rest) || listSubstr p rest

/-- Python `needle in hay` on strings. -/
def substrIn (needle hay : String) : Bool :=
  listSubstr needle.data hay.data

/-- Python `s.startswith(pre)`. -/
def pyStartsWith (s pre : String) : Bool :=
  listPre pre.data s.data

/-- Python `sep.join(parts)`. -/
def pyJoin (sep : String) : List String → String
  | [] => ""
  | [x] => x
  | x :: y :: ys => x ++ sep ++ pyJoin sep (y :: ys)

/-- Python `a or b` on `Optional[str]` values (`None` and `""` are falsy). -/
def pyOrOptStr (a b : Option String) : Option String :=
  match a with
  | some s => if s = "" then b else some s
  | none => b

/-- Python `a or None` on an `Optional[str]` value. -/
def pyOrNone (a : Option String) : Option String :=
  match a with
  | some s => if s = "" then none else some s
  | none => none

/-- Truthiness of an `Optional[str]` value. -/
def optTruthy : Option String → Bool
  | none => false
  | some s => s ≠ ""

/-- Python `title.replace(" ", "_")` (single-character pattern). -/
def slugOf (title : String) : String :=
  ⟨title.data.map (fun c => if c = ' ' then '_' else c)⟩

/-! ### Parsed HTML documents

The HTTP transport and BeautifulSoup are external collaborators; a fetched
page is modelled as its parse tree.  `Node`/`NodeList` are mutual so that
every traversal below is structural (and hence kernel-evaluable). -/

mutual
inductive Node where
  | text (s : String)
  | elem (tag : String) (attrs : List (String × String)) (children : NodeList)
inductive NodeList where
  | nil
  | cons (n : Node) (rest : NodeList)
end

/-  All `NavigableString` descendants of a node, in document order. -/
mutual
def nodeTexts : Node → List String
  | Node.text s => [s]
  | Node.elem _ _ ch => nodeTextsL ch
def nodeTextsL : NodeList → List String
  | NodeList.nil => []
  | NodeList.cons n rest => nodeTexts n ++ nodeTextsL rest
end

/-- BeautifulSoup `get_text(separator=" ")`. -/
def getTextSep (n : Node) : String :=
  pyJoin " " (nodeTexts n)

/-- BeautifulSoup `get_text(strip=True)`: strip each string, skip the empty
ones, join with no separator. -/
def getTextStrip (n : Node) : String :=
  pyJoin "" (((nodeTexts n).map pyStrip).filter (· ≠ ""))

/-- Tag names matched by the source's `re.compile("^h[1-6]$")`. -/
def isHeaderTag (t : String) : Bool :=
  t = "h1" || t = "h2" || t = "h3" || t = "h4" || t = "h5" || t = "h6"

/-- Is this node a `table` element (target of `tb.decompose()`)? -/
def isTable : Node → Bool
  | Node.elem t _ _ => t = "table"
  | Node.text _ => false

/-  Effect of decomposing every element selected by `soup.select("table")`. -/
mutual
def removeTablesN : Node → Node
  | Node.text s => Node.text s
  | Node.elem t a ch => Node.elem t a (removeTablesL ch)
def removeTablesL : NodeList → NodeList
  | NodeList.nil => NodeList.nil
  | NodeList.cons n rest =>
      if isTable n then removeTablesL rest
      else NodeList.cons (removeTablesN n) (removeTablesL rest)
end

/-  `soup.find_all(re.compile("^h[1-6]$"))` in document (preorder) order,
each header paired with its `next_siblings`. -/
mutual
def collectHeadersN : Node → List (Node × NodeList)
  | Node.text _ => []
  | Node.elem _ _ ch => collectHeadersL ch
def collectHeadersL : NodeList → List (Node × NodeList)
  | NodeList.nil => []
  | NodeList.cons n rest =>
      (match n with
       | Node.elem t a ch =>
           (if isHeaderTag t then [(Node.elem t a ch, rest)] else []) ++
             collectHeadersL ch
       | Node.text _ => []) ++ collectHeadersL rest
end

/-  `soup.find("p")`: first `p` element in preorder. -/
mutual
def findFirstPN : Node → Option Node
  | Node.text _ => none
  | Node.elem t a ch =>
      if t = "p" then some (Node.elem t a ch) else findFirstPL ch
def findFirstPL : NodeList → Option Node
  | NodeList.nil => none
  | NodeList.cons n rest =>
      match findFirstPN n with
      | some p => some p
      | none => findFirstPL rest
end

/-  `soup.find_all("a", href=True)`: every anchor carrying an `href`
attribute, in document order, paired with that attribute's value. -/
mutual
def collectAnchorsN : Node → List (String × Node)
  | Node.text _ => []
  | Node.elem t attrs ch =>
      (if t = "a" then
        match (attrs.find? (fun p => p.1 = "href")).map (·.2) with
        | some h => [(h, Node.elem t attrs ch)]
        | none => []
      else []) ++ collectAnchorsL ch
def collectAnchorsL : NodeList → List (String × Node)
  | NodeList.nil => []
  | NodeList.cons n rest => collectAnchorsN n ++ collectAnchorsL rest
end

/-! ### Python dicts (insertion-ordered association lists) -/

/-- Python `d[k] = v`: replace in place, else append. -/
def dictInsert : List (String × String) → String → String → List (String × String)
  | [], k, v => [(k, v)]
  | (k', v') :: rest, k, v =>
      if k' = k then (k, v) :: rest else (k', v') :: dictInsert rest k v

/-- Python `d.get(k)` / `k in d` lookup. -/
def dictGet : List (String × String) → String → Option String
  | [], _ => none
  | (k', v') :: rest, k => if k' = k then some v' else dictGet rest k

/-- Python `k in d`. -/
def hasKey : List (String × String) → String → Bool
  | [], _ => false
  | (k', _) :: rest, k => k' = k || hasKey rest k

/-- Python `d.setdefault(k, v)`. -/
def dictSetdefault (d : List (String × String)) (k v : String) :
    List (String × String) :=
  if hasKey d k then d else d ++ [(k, v)]

/-! ### `extract_sections_from_wiki_html` -/

/-- Lowercased stripped `get_text(separator=" ")` of a header: the key the
source stores a section under. -/
def headKey (h : Node) : String :=
  pyLower (pyStrip (getTextSep h))

/-- Body of the `for sib in header.next_siblings` loop: texts of `p`, `ul`,
`ol`, `div` siblings up to the next header, skipping empty ones. -/
def contentParts : NodeList → List String
  | NodeList.nil => []
  | NodeList.cons n rest =>
      match n with
      | Node.text _ => contentParts rest
      | Node.elem t a ch =>
          if isHeaderTag t then []
          else if t = "p" || t = "ul" || t = "ol" || t = "div" then
            let txt := pyStrip (getTextSep (Node.elem t a ch))
            if txt = "" then contentParts rest else txt :: contentParts rest
          else contentParts rest

/-- One iteration of the header loop: store the joined content parts under
the lowercased heading, skipping headings with no content. -/
def sectionStep (d : List (String × String)) (hx : Node × NodeList) :
    List (String × String) :=
  let parts := contentParts hx.2
  if parts = [] then d
  else dictInsert d (headKey hx.1) (pyJoin "\n\n" parts)

/-- Text of the document's first paragraph after table removal (the
`lead_para` local), or `""` when there is none. -/
def leadParaText (doc : NodeList) : String :=
  match findFirstPL (removeTablesL doc) with
  | some p => getTextStrip p
  | none => ""

/-- `extract_sections_from_wiki_html`: decompose tables, build the section
dict from the headers, then `setdefault` the first paragraph as summary. -/
def extract_sections_from_wiki_html (doc : NodeList) : List (String × String) :=
  let doc2 := removeTablesL doc
  let sections := (collectHeadersL doc2).foldl sectionStep []
  dictSetdefault sections "summary" (leadParaText doc)

/-! ### External world

Each field models one external HTTP surface the source calls; `none` is any
failure a `try/except` in the source absorbs (transport error, timeout,
non-success status, malformed JSON), plus for `wikiPage` the explicit
status-code check. -/

/-- Raw YouTube video search item (the fields the source reads). -/
structure YTItem where
  title : String
  videoId : String
deriving DecidableEq

/-- Raw YouTube playlist search item (the fields the source reads). -/
structure PLItem where
  title : String
  playlistId : String
deriving DecidableEq

/-- One Google Books volume as the source projects it (`volumeInfo.get`). -/
structure BookInfo where
  title : Option String
  authors : Option (List String)
  publisher : Option String
  infoLink : Option String
deriving DecidableEq

/-- Behaviour of the external sources. -/
structure Env where
  wikiSearch : String → Option (List String)
  wikiPage : String → Option (Nat × NodeList)
  haveYt : Bool
  ytApiKey : String
  ytVideoSearch : String → Nat → Option (List YTItem)
  ytPlaylistSearch : String → Option (List PLItem)
  booksSearch : String → Nat → Option (List BookInfo)
  pageFetch : String → Option NodeList

/-! ### Wikipedia resolver (`wiki_search_title`, `wiki_get_html`) -/

/-- `wiki_search_title`: first search result's title, `None` on any failure
or empty result list. -/
def wiki_search_title (env : Env) (query : String) : Option String :=
  match env.wikiSearch query with
  | none => none
  | some [] => none
  | some (t :: _) => some t

/-- `wiki_get_html`: fetch the rendered page for the slug; the body only
when the status is 200. -/
def wiki_get_html (env : Env) (title : String) : Option NodeList :=
  match env.wikiPage (slugOf title) with
  | none => none
  | some (code, doc) => if code = 200 then some doc else none

/-- Line 87 of the source: `wiki_search_title(query + " exam") or
wiki_search_title(query)`. -/
def resolvedWikiTitle (env : Env) (query : String) : Option String :=
  pyOrOptStr (wiki_search_title env (query ++ " exam"))
    (wiki_search_title env query)

/-! ### Section classifier (`find_relevant_wiki_info`) -/

/-- The `syllabus_keys` list. -/
def syllabusKeys : List String :=
  ["syllabus", "curriculum", "exam syllabus", "syllabus and exam pattern",
   "syllabus and structure"]

/-- The `pattern_keys` list. -/
def patternKeys : List String :=
  ["exam pattern", "pattern", "format", "structure", "scheme"]

/-- Substring fallback words for the syllabus field. -/
def syllabusWords : List String :=
  ["syllabus", "curriculum", "subjects", "paper", "exam"]

/-- Substring fallback words for the pattern field. -/
def patternWords : List String :=
  ["pattern", "structure", "format", "scheme", "paper"]

/-- The two-tier pick the source performs for each of syllabus and pattern:
first exact key in `exactKeys` order; if the value so found is falsy, the
first section whose name contains one of `fallbackWords`; first match wins. -/
def twoTierPick (exactKeys fallbackWords : List String)
    (sections : List (String × String)) : Option String :=
  let e := exactKeys.findSome? (fun k => dictGet sections k)
  if optTruthy e then e
  else
    match sections.findSome? (fun p =>
        if fallbackWords.any (fun w => substrIn w p.1) then some p.2
        else none) with
    | some c => some c
    | none => e

/-- The `WikiInfo`-shaped record `find_relevant_wiki_info` returns. -/
structure WikiInfo where
  title : Option String
  summary : Option String
  syllabus : Option String
  pattern : Option String
  otherSections : List (String × String)
deriving DecidableEq

/-- `find_relevant_wiki_info`: resolve a title, fetch the page, extract
sections, classify syllabus/pattern, keep all sections. -/
def find_relevant_wiki_info (env : Env) (query : String) : WikiInfo :=
  match resolvedWikiTitle env query with
  | none => ⟨none, none, none, none, []⟩
  | some title =>
    match wiki_get_html env title with
    | none => ⟨some title, none, none, none, []⟩
    | some doc =>
      let sections := extract_sections_from_wiki_html doc
      { title := some title
        summary := pyOrNone (pyOrOptStr (dictGet sections "summary")
          (dictGet sections "introduction"))
        syllabus := twoTierPick syllabusKeys syllabusWords sections
        pattern := twoTierPick patternKeys patternWords sections
        otherSections := sections }

/-! ### YouTube lookups -/

/-- Output record of `search_youtube_videos`. -/
structure Video where
  title : String
  videoId : String
  url : String
deriving DecidableEq

/-- Output record of `search_youtube_playlist`. -/
structure Playlist where
  title : String
  playlistId : String
  url : String
deriving DecidableEq

/-- `search_youtube_videos`: empty without client/credential, empty on any
API failure, else one record per returned item. -/
def search_youtube_videos (env : Env) (query : String) (maxResults : Nat) :
    List Video :=
  if !env.haveYt || env.ytApiKey = "" then []
  else
    match env.ytVideoSearch (query ++ " preparation") maxResults with
    | none => []
    | some items =>
        items.map (fun it =>
          ⟨it.title, it.videoId,
            "https://www.youtube.com/watch?v=" ++ it.videoId⟩)

/-- `search_youtube_playlist`: `None` without client/credential, on API
failure or empty result; else the first item. -/
def search_youtube_playlist (env : Env) (query : String) : Option Playlist :=
  if !env.haveYt || env.ytApiKey = "" then none
  else
    match env.ytPlaylistSearch (query ++ " preparation playlist") with
    | none => none
    | some [] => none
    | some (item :: _) =>
        some ⟨item.title, item.playlistId,
          "https://www.youtube.com/playlist?list=" ++ item.playlistId⟩

/-! ### Google Books lookup -/

/-- The combined OR query string of `search_google_books`. -/
def bookQuery (query : String) : String :=
  query ++ " preparation OR " ++ query ++ " syllabus OR " ++ query ++ " guide"

/-- `search_google_books`: empty on any failure; else up to `maxResults`
projected volumes. -/
def search_google_books (env : Env) (query : String) (maxResults : Nat) :
    List BookInfo :=
  match env.booksSearch (bookQuery query) maxResults with
  | none => []
  | some items =>
      (items.take maxResults).map (fun it =>
        ⟨it.title, it.authors, it.publisher, it.infoLink⟩)

/-! ### Free PYQ scraper (`fetch_free_pyqs_links`) -/

/-- One registered archive URL (the dicts appended to `links`). -/
structure RegLink where
  site : String
  exam : String
  link : String
deriving DecidableEq

/-- One scraped link (the dicts appended to `scraped_links`). -/
structure PyqEntry where
  site : String
  exam : String
  title : String
  link : String
deriving DecidableEq

/-- Lines 219–234: the keyword-gated registration of archive URLs, one
`if`/`elif` chain per site. -/
def registeredLinks (exam_query : String) : List RegLink :=
  let ql := pyLower exam_query
  let examsnet :=
    if substrIn "neet" ql then
      [⟨"Examsnet", "NEET",
        "https://www.examsnet.com/exams/neet-chapterwise-previous-question-papers-online"⟩]
    else if substrIn "jee" ql then
      [⟨"Examsnet", "JEE Mains",
        "https://www.examsnet.com/exams/jee-mains-chapterwise-previous-year-questions-online"⟩]
    else []
  let selfstudys :=
    if substrIn "neet" ql then
      [⟨"Selfstudys", "NEET",
        "https://www.selfstudys.com/books/neet-previous-year-paper/page/year-wise"⟩]
    else if substrIn "jee" ql then
      [⟨"Selfstudys", "JEE Mains",
        "https://www.selfstudys.com/books/jee-main-previous-year-paper/page/year-wise"⟩]
    else []
  examsnet ++ selfstudys

/-- Lines 249–250: keep an absolute href verbatim, else glue it onto the
page URL with single slashes. -/
def resolveHref (pageLink href : String) : String :=
  if pyStartsWith href "http" then href
  else pyRstripSlash pageLink ++ "/" ++ pyLstripSlash href

/-- One iteration of the `for item in links` loop: fetch the page (skip it
silently on failure) and keep each anchor whose href contains "pdf" or whose
text contains "previous" or "paper". -/
def scrapeOne (env : Env) (item : RegLink) : List PyqEntry :=
  match env.pageFetch item.link with
  | none => []
  | some doc =>
      (collectAnchorsL doc).filterMap (fun pr =>
        let href := pr.1
        let text := getTextStrip pr.2
        if substrIn "pdf" (pyLower href) || substrIn "previous" (pyLower text)
            || substrIn "paper" (pyLower text) then
          some ⟨item.site, item.exam, text, resolveHref item.link href⟩
        else none)

/-- The full `scraped_links` accumulation across the registered pages. -/
def scrapeAll (env : Env) : List RegLink → List PyqEntry
  | [] => []
  | item :: rest => scrapeOne env item ++ scrapeAll env rest

/-- `fetch_free_pyqs_links`: register, scrape, truncate to 5. -/
def fetch_free_pyqs_links (env : Env) (exam_query : String) : List PyqEntry :=
  (scrapeAll env (registeredLinks exam_query)).take 5

/-! ### Aggregator and CLI -/

/-- The aggregate record `fetch_exam_info_universal` returns. -/
structure ExamInfo where
  query : String
  wikipedia : WikiInfo
  videos : List Video
  playlist : Option Playlist
  books : List BookInfo
  freePyqs : List PyqEntry
deriving DecidableEq

/-- `fetch_exam_info_universal`: Wikipedia always; videos and playlist only
when `include_videos`; books and free PYQs only when `include_books`. -/
def fetch_exam_info_universal (env : Env) (exam_query : String)
    (include_videos include_books : Bool) : ExamInfo :=
  { query := exam_query
    wikipedia := find_relevant_wiki_info env exam_query
    videos := if include_videos then search_youtube_videos env exam_query 6
      else []
    playlist := if include_videos then search_youtube_playlist env exam_query
      else none
    books := if include_books then search_google_books env exam_query 6 else []
    freePyqs := if include_books then fetch_free_pyqs_links env exam_query
      else [] }

/-- Lines 278–281 of the `__main__` block: on a blank (stripped-empty) input
the program prints exactly this notice and exits; `none` means the guard is
not taken and the program proceeds to the lookup. -/
def cliBlankResponse (rawInput : String) : Option (List String) :=
  if pyStrip rawInput = "" then some ["No query entered. Exiting."] else none

/-- Line 283: the lookup runs exactly when the stripped input is non-blank. -/
def cliPerformsLookup (rawInput : String) : Bool :=
  !(pyStrip rawInput = "")

/-- Convenience constructor for documents in concrete instances. -/
def nl : List Node → NodeList
  | [] => NodeList.nil
  | n :: r => NodeList.cons n (nl r)

/-! ### Helper lemmas -/

theorem append_ne_left {x : String} (y : String) (hx : x ≠ "") : x ++ y ≠ "" := by
  intro h
  apply hx
  have hd : x.data ++ y.data = ([] : List Char) := by
    simpa [String.data_append] using congrArg String.data h
  have hx0 : x.data = [] := (List.append_eq_nil.mp hd).1
  cases x
  simp_all

theorem pyJoin_cons_ne (sep x : String) (xs : List String) (hx : x ≠ "") :
    pyJoin sep (x :: xs) ≠ "" := by
  cases xs with
  | nil => simpa [pyJoin] using hx
  | cons y ys =>
      simp only [pyJoin]
      exact append_ne_left _ (append_ne_left _ hx)

theorem contentParts_ne :
    ∀ (sibs : NodeList) (x : String), x ∈ contentParts sibs → x ≠ ""
  | NodeList.nil, x, hx => by simp [contentParts] at hx
  | NodeList.cons n rest, x, hx => by
      cases n with
      | text s => exact contentParts_ne rest x (by simpa [contentParts] using hx)
      | elem t a ch =>
          simp only [contentParts] at hx
          split at hx
          · simp at hx
          · split at hx
            · split at hx
              · exact contentParts_ne rest x hx
              · rcases List.mem_cons.mp hx with h | h
                · subst h; assumption
                · exact contentParts_ne rest x h
            · exact contentParts_ne rest x hx

theorem mem_dictInsert {d : List (String × String)} {k v : String}
    {kv : String × String} (h : kv ∈ dictInsert d k v) :
    kv = (k, v) ∨ kv ∈ d := by
  induction d with
  | nil => simpa [dictInsert] using h
  | cons p rest ih =>
      obtain ⟨k', v'⟩ := p
      simp only [dictInsert] at h
      split at h
      · rcases List.mem_cons.mp h with h | h
        · exact Or.inl h
        · exact Or.inr (List.mem_cons_of_mem _ h)
      · rcases List.mem_cons.mp h with h | h
        · exact Or.inr (h ▸ List.mem_cons_self _ _)
        · rcases ih h with h | h
          · exact Or.inl h
          · exact Or.inr (List.mem_cons_of_mem _ h)

theorem dictGet_mem :
    ∀ {d : List (String × String)} {k v : String},
      dictGet d k = some v → (k, v) ∈ d
  | [], _, _, h => by simp [dictGet] at h
  | (k', v') :: rest, k, v, h => by
      simp only [dictGet] at h
      split at h
      · obtain rfl := Option.some.inj h
        simp_all
      · exact List.mem_cons_of_mem _ (dictGet_mem h)

theorem hasKey_dictInsert_ne {k' k : String} (hne : k' ≠ k) :
    ∀ (d : List (String × String)) (v : String),
      hasKey (dictInsert d k' v) k = hasKey d k := by
  intro d v
  induction d with
  | nil => simp [dictInsert, hasKey, hne]
  | cons p rest ih =>
      obtain ⟨k₀, v₀⟩ := p
      simp only [dictInsert]
      split
      · next heq => simp [hasKey, heq, hne]
      · simp [hasKey, ih]

theorem dictGet_append_notkey {d : List (String × String)} {k v : String}
    (h : hasKey d k = false) : dictGet (d ++ [(k, v)]) k = some v := by
  induction d with
  | nil => simp [dictGet]
  | cons p rest ih =>
      obtain ⟨k₀, v₀⟩ := p
      simp only [hasKey, Bool.or_eq_false_iff] at h
      simp only [List.cons_append, dictGet]
      rw [if_neg (by simpa using h.1)]
      exact ih h.2

theorem fold_sections_ne :
    ∀ (hs : List (Node × NodeList)) (d : List (String × String)),
      (∀ kv ∈ d, kv.2 ≠ "") →
      ∀ kv ∈ hs.foldl sectionStep d, kv.2 ≠ "" := by
  intro hs
  induction hs with
  | nil => intro d hd; simpa using hd
  | cons hx hs ih =>
      intro d hd kv hkv
      simp only [List.foldl_cons] at hkv
      refine ih _ ?_ kv hkv
      intro kv' hkv'
      simp only [sectionStep] at hkv'
      split at hkv'
      · exact hd kv' hkv'
      · next hparts =>
          rcases mem_dictInsert hkv' with h | h
          · subst h
            cases hp : contentParts hx.2 with
            | nil => exact absurd hp hparts
            | cons p ps =>
                simp only [hp]
                exact pyJoin_cons_ne _ _ _
                  (contentParts_ne hx.2 p (hp ▸ List.mem_cons_self _ _))
          · exact hd kv' h

theorem fold_sections_hasKey :
    ∀ (hs : List (Node × NodeList)) (d : List (String × String)) (k : String),
      (∀ hx ∈ hs, ¬ headKey hx.1 = k) → hasKey d k = false →
      hasKey (hs.foldl sectionStep d) k = false := by
  intro hs
  induction hs with
  | nil => intro d k _ hd; simpa using hd
  | cons hx hs ih =>
      intro d k hh hd
      simp only [List.foldl_cons]
      refine ih _ _ (fun hx' h => hh hx' (List.mem_cons_of_mem _ h)) ?_
      simp only [sectionStep]
      split
      · exact hd
      · rw [hasKey_dictInsert_ne (hh hx (List.mem_cons_self _ _)) d]
        exact hd

theorem extract_value_empty {doc : NodeList} {kv : String × String}
    (h : kv ∈ extract_sections_from_wiki_html doc) (he : kv.2 = "") :
    kv.1 = "summary" := by
  simp only [extract_sections_from_wiki_html, dictSetdefault] at h
  split at h
  · exact absurd he (fold_sections_ne _ [] (by simp) kv h)
  · rcases List.mem_append.mp h with h | h
    · exact absurd he (fold_sections_ne _ [] (by simp) kv h)
    · simp only [List.mem_singleton] at h
      rw [h]

theorem extract_summary_of_no_heading (doc : NodeList)
    (hh : ∀ hx ∈ collectHeadersL (removeTablesL doc), ¬ headKey hx.1 = "summary") :
    dictGet (extract_sections_from_wiki_html doc) "summary" =
      some (leadParaText doc) := by
  have hk : hasKey ((collectHeadersL (removeTablesL doc)).foldl sectionStep [])
      "summary" = false :=
    fold_sections_hasKey _ [] _ hh rfl
  simp only [extract_sections_from_wiki_html, dictSetdefault]
  rw [if_neg (by simp [hk])]
  exact dictGet_append_notkey hk

/-- A concrete document with one content-bearing heading and no paragraph. -/
def docC9 : NodeList :=
  nl [Node.elem "h2" [] (nl [Node.text "Syllabus"]),
      Node.elem "div" [] (nl [Node.text "Stuff"])]

/-- Every external call fails (transport error, timeout, non-success
status, or missing credential make the corresponding responder yield
nothing). -/
def envAllFail (env : Env) : Prop :=
  (∀ s, env.wikiSearch s = none) ∧ (∀ s n, env.ytVideoSearch s n = none) ∧
  (∀ s, env.ytPlaylistSearch s = none) ∧ (∀ s n, env.booksSearch s n = none) ∧
  (∀ s, env.pageFetch s = none)

/-- A concrete environment in which every external call fails. -/
def failEnv : Env :=
  ⟨fun _ => none, fun _ => none, false, "", fun _ _ => none, fun _ => none,
   fun _ _ => none, fun _ => none⟩

/-- A concrete Wikipedia document with pattern/format/syllabus headings and
a lead paragraph. -/
def docC2 : NodeList :=
  nl [Node.elem "p" [] (nl [Node.text "Lead"]),
      Node.elem "h2" [] (nl [Node.text "Exam Pattern"]),
      Node.elem "p" [] (nl [Node.text "PAT"]),
      Node.elem "h2" [] (nl [Node.text "Test format"]),
      Node.elem "p" [] (nl [Node.text "FMT"]),
      Node.elem "h2" [] (nl [Node.text "Syllabus"]),
      Node.elem "p" [] (nl [Node.text "SYL"])]

/-- A concrete environment that resolves every query to title "T" rendered
as `docC2`, with all other sources failing. -/
def envC2 : Env :=
  ⟨fun _ => some ["T"], fun _ => some (200, docC2), false, "",
   fun _ _ => none, fun _ => none, fun _ _ => none, fun _ => none⟩

/-- The first entry scraped from `richEnv` for the query "jee". -/
def pyqWitnessEntry : PyqEntry :=
  ⟨"Examsnet", "JEE Mains", "",
   "https://www.examsnet.com/exams/jee-mains-chapterwise-previous-year-questions-online/x.pdf"⟩

/-- A concrete environment in which every external call succeeds with
non-empty data (each archive page holds one pdf anchor). -/
def richEnv : Env :=
  ⟨fun _ => some ["T"], fun _ => some (200, docC2), true, "k",
   fun _ _ => some [⟨"v", "id"⟩], fun _ => some [⟨"p", "pl"⟩],
   fun _ _ => some [⟨some "b", none, none, none⟩],
   fun _ => some (nl [Node.elem "a" [("href", "x.pdf")] NodeList.nil])⟩

theorem twoTierPick_head {k : String} {ks fw : List String}
    {sections : List (String × String)} {v : String}
    (hv : dictGet sections k = some v) (hne : v ≠ "") :
    twoTierPick (k :: ks) fw sections = some v := by
  simp [twoTierPick, List.findSome?_cons, hv, optTruthy, hne]

theorem scrapeAll_pageFail (env : Env) (h : ∀ s, env.pageFetch s = none) :
    ∀ items, scrapeAll env items = []
  | [] => rfl
  | item :: rest => by
      simp [scrapeAll, scrapeOne, h, scrapeAll_pageFail env h rest]

theorem listPre_append :
    ∀ (p a b : List Char), listPre p a = true → listPre p (a ++ b) = true
  | [], _, _, _ => rfl
  | c :: cs, [], b, h => by simp [listPre] at h
  | c :: cs, a :: as, b, h => by
      simp only [List.cons_append, listPre, Bool.and_eq_true] at h ⊢
      exact ⟨h.1, listPre_append cs as b h.2⟩

theorem pyStartsWith_append (s t pre : String)
    (h : pyStartsWith s pre = true) : pyStartsWith (s ++ t) pre = true := by
  unfold pyStartsWith at h ⊢
  rw [String.data_append]
  exact listPre_append _ _ _ h

theorem mem_scrapeAll {env : Env} {e : PyqEntry} :
    ∀ {items : List RegLink}, e ∈ scrapeAll env items →
      ∃ item, item ∈ items ∧ e ∈ scrapeOne env item
  | [], h => by simp [scrapeAll] at h
  | item :: rest, h => by
      rcases List.mem_append.mp (by simpa [scrapeAll] using h) with h | h
      · exact ⟨item, List.mem_cons_self _ _, h⟩
      · obtain ⟨it, hit, he⟩ := mem_scrapeAll h
        exact ⟨it, List.mem_cons_of_mem _ hit, he⟩

theorem scrapeOne_link {env : Env} {item : RegLink} {e : PyqEntry}
    (h : e ∈ scrapeOne env item)
    (hp : pyStartsWith (pyRstripSlash item.link) "http" = true) :
    pyStartsWith e.link "http" = true := by
  unfold scrapeOne at h
  split at h
  · simp at h
  · obtain ⟨pr, hpr, he⟩ := List.mem_filterMap.mp h
    simp only at he
    split at he
    · obtain rfl := Option.some.inj he
      simp only [resolveHref]
      split
      · assumption
      · exact pyStartsWith_append _ _ _ (pyStartsWith_append _ _ _ hp)
    · exact absurd he (by simp)

theorem reg_link_http (q : String) :
    ∀ item ∈ registeredLinks q,
      pyStartsWith (pyRstripSlash item.link) "http" = true := by
  intro item h
  simp only [registeredLinks] at h
  rcases List.mem_append.mp h with h | h
  · split at h
    · simp only [List.mem_singleton] at h; subst h; decide
    · split at h
      · simp only [List.mem_singleton] at h; subst h; decide
      · simp at h
  · split at h
    · simp only [List.mem_singleton] at h; subst h; decide
    · split at h
      · simp only [List.mem_singleton] at h; subst h; decide
      · simp at h

/-! ### Claims -/

/-- C9: every value `extract_sections_from_wiki_html` stores under a
heading-derived key is a non-empty string; a heading whose accumulated text
is empty is omitted, so only the fallback "summary" key may map to `""`. -/
theorem c9_section_values_nonempty (doc : NodeList) (k v : String)
    (h : dictGet (extract_sections_from_wiki_html doc) k = some v)
    (hv : v = "") : k = "summary" :=
  extract_value_empty (dictGet_mem h) hv


/-- C1: for every query and every behaviour of the external sources the
aggregate record is well formed (it always carries its six fields, with
`query` the original query), and when every external call fails each
sub-lookup degrades to its typed empty/absent value with no exception
escaping (the embedding is total). -/
theorem c1_aggregate_degrades (env : Env) (q : String) (iv ib : Bool) :
    (fetch_exam_info_universal env q iv ib).query = q ∧
    (envAllFail env →
      fetch_exam_info_universal env q iv ib =
        ⟨q, ⟨none, none, none, none, []⟩, [], none, [], []⟩) := by
  refine ⟨rfl, ?_⟩
  rintro ⟨h1, h2, h3, h4, h5⟩
  have hwiki : find_relevant_wiki_info env q = ⟨none, none, none, none, []⟩ := by
    simp [find_relevant_wiki_info, resolvedWikiTitle, wiki_search_title, h1,
      pyOrOptStr]
  have hpyq : fetch_free_pyqs_links env q = [] := by
    simp [fetch_free_pyqs_links, scrapeAll_pageFail env h5]
  unfold fetch_exam_info_universal
  rw [hwiki, hpyq]
  cases iv <;> cases ib <;>
    simp [search_youtube_videos, search_youtube_playlist,
      search_google_books, h2, h3, h4]

theorem c1_aggregate_degrades_witness :
    (fetch_exam_info_universal failEnv "CLAT" true true).query = "CLAT" ∧
    fetch_exam_info_universal failEnv "CLAT" true true =
      ⟨"CLAT", ⟨none, none, none, none, []⟩, [], none, [], []⟩ := by
  have h := c1_aggregate_degrades failEnv "CLAT" true true
  exact ⟨h.1, h.2 ⟨fun _ => rfl, fun _ _ => rfl, fun _ => rfl,
    fun _ _ => rfl, fun _ => rfl⟩⟩

/-- C2: on any section mapping the extractor produces, the exact canonical
label "exam pattern" (first in `patternKeys`) wins for the pattern field,
whatever substring-fallback candidates exist, and likewise the exact label
"syllabus" (first in `syllabusKeys`) wins for the syllabus field: exact
labels take priority over the substring fallback and the first match wins. -/
theorem c2_exact_label_priority (env : Env) (q title : String)
    (doc : NodeList) (v w : String)
    (hT : resolvedWikiTitle env q = some title)
    (hH : wiki_get_html env title = some doc)
    (hv : dictGet (extract_sections_from_wiki_html doc) "exam pattern" = some v) :
    (find_relevant_wiki_info env q).pattern = some v ∧
    (dictGet (extract_sections_from_wiki_html doc) "syllabus" = some w →
      (find_relevant_wiki_info env q).syllabus = some w) := by
  have hvne : v ≠ "" := by
    intro h0
    have h1 : ("exam pattern" : String) = "summary" :=
      extract_value_empty (dictGet_mem hv) h0
    exact absurd h1 (by decide)
  constructor
  · simp only [find_relevant_wiki_info, hT, hH, patternKeys]
    exact twoTierPick_head hv hvne
  · intro hw
    have hwne : w ≠ "" := by
      intro h0
      have h1 : ("syllabus" : String) = "summary" :=
        extract_value_empty (dictGet_mem hw) h0
      exact absurd h1 (by decide)
    simp only [find_relevant_wiki_info, hT, hH, syllabusKeys]
    exact twoTierPick_head hw hwne

theorem c2_exact_label_priority_witness :
    dictGet (extract_sections_from_wiki_html docC2) "exam pattern" =
        some "PAT" ∧
    dictGet (extract_sections_from_wiki_html docC2) "syllabus" = some "SYL" ∧
    (find_relevant_wiki_info envC2 "X").pattern = some "PAT" ∧
    (find_relevant_wiki_info envC2 "X").syllabus = some "SYL" := by
  have h := c2_exact_label_priority envC2 "X" "T" docC2 "PAT" "SYL"
    rfl rfl (by decide)
  exact ⟨by decide, by decide, h.1, h.2 (by decide)⟩

/-- C3: URL registration is keyword-gated on the lowercased query — a query
containing "neet" registers the NEET archive URL of each of the two sites,
else one containing "jee" registers the JEE URL of each site, else nothing
is registered and the PYQ list is empty; "JEE Main 2024" selects the JEE
URLs and not the NEET ones. -/
theorem c3_keyword_gating (q : String) :
    registeredLinks q =
      (if substrIn "neet" (pyLower q) then
        [⟨"Examsnet", "NEET",
          "https://www.examsnet.com/exams/neet-chapterwise-previous-question-papers-online"⟩,
         ⟨"Selfstudys", "NEET",
          "https://www.selfstudys.com/books/neet-previous-year-paper/page/year-wise"⟩]
      else if substrIn "jee" (pyLower q) then
        [⟨"Examsnet", "JEE Mains",
          "https://www.examsnet.com/exams/jee-mains-chapterwise-previous-year-questions-online"⟩,
         ⟨"Selfstudys", "JEE Mains",
          "https://www.selfstudys.com/books/jee-main-previous-year-paper/page/year-wise"⟩]
      else []) ∧
    (registeredLinks q = [] → ∀ env, fetch_free_pyqs_links env q = []) ∧
    registeredLinks "JEE Main 2024" =
      [⟨"Examsnet", "JEE Mains",
        "https://www.examsnet.com/exams/jee-mains-chapterwise-previous-year-questions-online"⟩,
       ⟨"Selfstudys", "JEE Mains",
        "https://www.selfstudys.com/books/jee-main-previous-year-paper/page/year-wise"⟩] := by
  refine ⟨?_, ?_, by decide⟩
  · cases h1 : substrIn "neet" (pyLower q) <;>
      cases h2 : substrIn "jee" (pyLower q) <;>
      simp [registeredLinks, h1, h2]
  · intro h env
    simp [fetch_free_pyqs_links, h, scrapeAll]

theorem c3_keyword_gating_witness :
    registeredLinks "UPSC" = [] ∧
    fetch_free_pyqs_links richEnv "UPSC" = [] :=
  ⟨by decide, (c3_keyword_gating "UPSC").2.1 (by decide) richEnv⟩

/-- C4: for every query and every content of the fetched archive pages the
returned PYQ list has length at most 5 and equals the first 5 entries of
the full scrape in site-then-page order. -/
theorem c4_truncation (env : Env) (q : String) :
    (fetch_free_pyqs_links env q).length ≤ 5 ∧
    fetch_free_pyqs_links env q =
      (scrapeAll env (registeredLinks q)).take 5 :=
  ⟨List.length_take_le 5 (scrapeAll env (registeredLinks q)), rfl⟩

/-- C5: when no heading of the document yields the section key "summary"
or "introduction", the summary field of `find_relevant_wiki_info` is the
text of the document's first paragraph after table removal, which
`extract_sections_from_wiki_html` stores under the "summary" key. -/
theorem c5_summary_fallback (env : Env) (q title : String) (doc : NodeList)
    (hT : resolvedWikiTitle env q = some title)
    (hH : wiki_get_html env title = some doc)
    (hhead : ∀ hx ∈ collectHeadersL (removeTablesL doc),
      ¬ headKey hx.1 = "summary" ∧ ¬ headKey hx.1 = "introduction")
    (hlead : leadParaText doc ≠ "") :
    (find_relevant_wiki_info env q).summary = some (leadParaText doc) ∧
    dictGet (extract_sections_from_wiki_html doc) "summary" =
      some (leadParaText doc) := by
  have hsum :=
    extract_summary_of_no_heading doc (fun hx h => (hhead hx h).1)
  refine ⟨?_, hsum⟩
  simp only [find_relevant_wiki_info, hT, hH]
  simp [hsum, pyOrOptStr, pyOrNone, hlead]

theorem c5_summary_fallback_witness :
    (∀ hx ∈ collectHeadersL (removeTablesL docC2),
      ¬ headKey hx.1 = "summary" ∧ ¬ headKey hx.1 = "introduction") ∧
    leadParaText docC2 ≠ "" ∧
    (find_relevant_wiki_info envC2 "X").summary = some (leadParaText docC2) ∧
    dictGet (extract_sections_from_wiki_html docC2) "summary" =
      some (leadParaText docC2) := by
  have h := c5_summary_fallback envC2 "X" "T" docC2 rfl rfl
    (by decide) (by decide)
  exact ⟨by decide, by decide, h.1, h.2⟩

/-- C6: the anchor href "papers/2023.pdf" is relative (does not start with
"http") and resolves against the page URL "https://x/y/" to
"https://x/y/papers/2023.pdf". -/
theorem c6_relative_href :
    pyStartsWith "papers/2023.pdf" "http" = false ∧
    resolveHref "https://x/y/" "papers/2023.pdf" =
      "https://x/y/papers/2023.pdf" := by decide

/-- C7: `include_videos = false` forces an empty videos list and absent
playlist, `include_books = false` forces both the books list and the PYQ
list empty (one flag gates both), whatever the external sources would
return, while Wikipedia resolution always contributes its result. -/
theorem c7_flag_gating (env : Env) (q : String) (iv ib : Bool) :
    (iv = false → (fetch_exam_info_universal env q iv ib).videos = [] ∧
      (fetch_exam_info_universal env q iv ib).playlist = none) ∧
    (ib = false → (fetch_exam_info_universal env q iv ib).books = [] ∧
      (fetch_exam_info_universal env q iv ib).freePyqs = []) ∧
    (fetch_exam_info_universal env q iv ib).wikipedia =
      find_relevant_wiki_info env q := by
  refine ⟨?_, ?_, rfl⟩
  · rintro rfl
    exact ⟨rfl, rfl⟩
  · rintro rfl
    exact ⟨rfl, rfl⟩

theorem c7_flag_gating_witness :
    (fetch_exam_info_universal richEnv "NEET" false false).videos = [] ∧
    (fetch_exam_info_universal richEnv "NEET" false false).playlist = none ∧
    (fetch_exam_info_universal richEnv "NEET" false false).books = [] ∧
    (fetch_exam_info_universal richEnv "NEET" false false).freePyqs = [] ∧
    (fetch_exam_info_universal richEnv "NEET" false false).wikipedia =
      find_relevant_wiki_info richEnv "NEET" := by
  have h := c7_flag_gating richEnv "NEET" false false
  exact ⟨(h.1 rfl).1, (h.1 rfl).2, (h.2.1 rfl).1, (h.2.1 rfl).2, h.2.2⟩

/-- C8 counterexample: on a blank input the program does print after the
prompt — the guard emits the line "No query entered. Exiting.", so the
printed output is not empty as the claim states. -/
theorem c8_blank_counterexample :
    cliBlankResponse "" = some ["No query entered. Exiting."] ∧
    some ["No query entered. Exiting."] ≠ some ([] : List String) := by
  decide

/-- C8 (amended): on a blank (stripped-empty) exam name the program prints
exactly the single notice line "No query entered. Exiting." and exits
without performing any external lookup. -/
theorem c8_blank_exit (raw : String) (h : pyStrip raw = "") :
    cliBlankResponse raw = some ["No query entered. Exiting."] ∧
    cliPerformsLookup raw = false := by
  simp [cliBlankResponse, cliPerformsLookup, h]

theorem c8_blank_exit_witness :
    pyStrip "  " = "" ∧
    cliBlankResponse "  " = some ["No query entered. Exiting."] ∧
    cliPerformsLookup "  " = false :=
  ⟨by decide, (c8_blank_exit "  " (by decide)).1,
   (c8_blank_exit "  " (by decide)).2⟩

/-- C10: every entry the PYQ scraper returns has a link starting with
"http": absolute hrefs are kept verbatim and relative ones are prefixed by
the registered page URL, which itself starts with "https". -/
theorem c10_links_absolute (env : Env) (q : String) (e : PyqEntry)
    (he : e ∈ fetch_free_pyqs_links env q) :
    pyStartsWith e.link "http" = true := by
  unfold fetch_free_pyqs_links at he
  have he' : e ∈ scrapeAll env (registeredLinks q) := List.take_subset 5 _ he
  obtain ⟨item, hit, hmem⟩ := mem_scrapeAll he'
  exact scrapeOne_link hmem (reg_link_http q item hit)

theorem c10_links_absolute_witness :
    pyqWitnessEntry ∈ fetch_free_pyqs_links richEnv "jee" ∧
    pyStartsWith pyqWitnessEntry.link "http" = true :=
  ⟨by decide, c10_links_absolute richEnv "jee" pyqWitnessEntry (by decide)⟩

theorem c9_section_values_nonempty_witness :
    dictGet (extract_sections_from_wiki_html docC9) "summary" = some "" ∧
      "summary" = "summary" := by
  constructor
  · decide
  · exact c9_section_values_nonempty docC9 "summary" "" (by decide) rfl

end Scrapy
